import Mathlib

/-!
Bibed multi-file store: verification of the spec against the source.

Shallow embedding of the parts of `bibed/database.py`, `bibed/store.py`,
`bibed/entry.py`, `bibed/constants.py` and `bibed/strings.py` that the
claims C1–C10 are about, together with theorems settling each claim.

Machine integers do not overflow in any of the embedded code paths
(all involved values are small), so `Nat`/`Int` are used directly.
-/

set_option autoImplicit false

namespace Bibed

/-! ## FileTypes constants (`bibed/constants.py`, lines 73–83)

`FileTypes` is an `Anything` instance holding plain integer bit masks.
-/

def FileTypes.SPECIAL   : Nat := 0xff00000
def FileTypes.ALL       : Nat := 0x0100000
def FileTypes.SEPARATOR : Nat := 0x8000000
def FileTypes.SYSTEM    : Nat := 0x00ff000
def FileTypes.TRASH     : Nat := 0x0001000
def FileTypes.QUEUE     : Nat := 0x0002000
def FileTypes.IMPORTED  : Nat := 0x0004000
def FileTypes.TRANSIENT : Nat := 0x0080000
def FileTypes.USER      : Nat := 0x0000fff
def FileTypes.NOTFOUND  : Nat := 0x0000800

/-- Constant `MINIMUM_BIB_KEY_LENGTH` (`bibed/constants.py`, line 32). -/
def MINIMUM_BIB_KEY_LENGTH : Nat := 8

/-! ## `BibedDatabase.write` (`bibed/database.py`, lines 129–138)

```python
def write(self):
    if gpod('backup_before_save'):
        self.backup()
    with open(self.filename, 'w') as bibfile:
            bibfile.write(self.writer.write(self.bibdb))
```

The write opens `self.filename` itself with mode `'w'`, which truncates the
file in place, and then writes the serialization into it.  No temporary
file and no rename are involved.  We model the file-system effects of one
`write()` call as the list of operations it performs, and derive from it
the successive contents observable at the database's path.
-/

/-- One file-system effect of `BibedDatabase.write` on the database's path
or its directory.  `backup` is `shutil.copyfile` to a dated sibling file
(it does not touch the database file itself); `truncate` is the effect of
`open(self.filename, 'w')`; `writeData s` is `bibfile.write(s)`. -/
inductive WriteEvent where
  | backup
  | truncate
  | writeData (s : String)
  deriving DecidableEq, Repr

/-- The sequence of file-system operations performed by
`BibedDatabase.write`, in program order: the optional `backup()` guarded by
`gpod('backup_before_save')`, then the truncating `open`, then the write of
the full serialization `serialized = self.writer.write(self.bibdb)`. -/
def write_events (backup_before_save : Bool) (serialized : String) : List WriteEvent :=
  (if backup_before_save then [WriteEvent.backup] else [])
    ++ [WriteEvent.truncate, WriteEvent.writeData serialized]

/-- Content observable at the database's path after one event, given the
content before it.  `backup` copies the file elsewhere and leaves the path
unchanged; `truncate` empties it; `writeData s` replaces the (empty)
content with `s`. -/
def applyWriteEvent (content : String) : WriteEvent → String
  | WriteEvent.backup => content
  | WriteEvent.truncate => ""
  | WriteEvent.writeData s => s

/-- Successive contents observable at the database's path while a list of
write events executes, starting from the previous on-disk content.  The
first element is the content before the call and the last the content
after it. -/
def contentTrace (old : String) (events : List WriteEvent) : List String :=
  events.scanl applyWriteEvent old

/-- Content left at the database's path when `bibfile.write` fails after
only `written` characters of the serialization reached the disk: the file
was already truncated by `open(self.filename, 'w')`, so only a prefix of
the new serialization remains. -/
def write_fail_content (serialized : String) (written : Nat) : String :=
  String.mk (serialized.toList.take written)

/-! ### C1 -/

/-- Claim C1, counterexample.  The claim states that `write()` persists the
entries by writing to a temporary file and renaming it over the original,
so that every content observable at the database's path during the write
is either the previous content or the new serialization, and that a failed
write leaves the previous content unchanged.  Both parts fail on the code:
with previous content `"a"` and serialization `"b"` (backup disabled), the
truncated content `""` is observable at the path, and a write failing
after 0 characters leaves `""` instead of the previous `"a"`. -/
theorem C1_write_not_atomic_counterexample :
    contentTrace "a" (write_events false "b") = ["a", "", "b"]
    ∧ (("" == "a") || ("" == "b")) = false
    ∧ write_fail_content "b" 0 = ""
    ∧ ("" == "a") = false := by
  refine ⟨rfl, rfl, rfl, rfl⟩

/-- Claim C1, amended.  `write()` first performs `backup()` when
`backup_before_save` is configured, then persists the full in-memory entry
sequence by truncating the database file in place and writing the
serialization directly into it; the truncated empty content is observable
at the database's path during every write, the final content on success is
the full serialization, and a write failing after `written` characters
leaves a prefix of the new serialization — not the previous content — on
disk. -/
theorem C1_write_in_place (serialized : String) :
    write_events true serialized
      = [WriteEvent.backup, WriteEvent.truncate, WriteEvent.writeData serialized]
    ∧ write_events false serialized
      = [WriteEvent.truncate, WriteEvent.writeData serialized]
    ∧ (∀ old : String, ∀ backup_before_save : Bool,
        "" ∈ contentTrace old (write_events backup_before_save serialized)
        ∧ (contentTrace old (write_events backup_before_save serialized)).getLast?
            = some serialized)
    ∧ (∀ written : Nat,
        write_fail_content serialized written
          = String.mk (serialized.toList.take written)) := by
  refine ⟨rfl, rfl, ?_, fun _ => rfl⟩
  intro old backup_before_save
  cases backup_before_save <;>
    simp [write_events, contentTrace, List.scanl, applyWriteEvent]

/-! ## `BibedDataStore` (`bibed/store.py`, lines 720–854)

`BibedDataStore` is a `Gtk.ListStore` whose rows are built by
`__entry_to_store`; for the claims we keep the columns the embedded
operations read or write — `global_id` (`BibAttrs.GLOBAL_ID`), the owning
file's name (`BibAttrs.FILENAME`) and the entry key (`BibAttrs.KEY`) — the
remaining columns are display-only strings never consulted by the
operations below. -/

structure StoreRow where
  global_id : Nat
  filename : String
  key : String
  deriving DecidableEq, Repr

/-- Source `BibedDataStore.do_recompute_global_ids` (`bibed/store.py`, 770–781):

```python
for index, row in enumerate(self):
    row[gid_index] = index
```
-/
def do_recompute_global_ids (rows : List StoreRow) : List StoreRow :=
  rows.enum.map (fun p => { p.2 with global_id := p.1 })

/-- Source `BibedDataStore.clear_data` (`bibed/store.py`, 842–853): remove every
row whose `FILENAME` column equals `filename`, then recompute the global
ids when `recompute` is set. -/
def dataStore_clear_data (rows : List StoreRow) (filename : String)
    (recompute : Bool) : List StoreRow :=
  let rows' := rows.filter (fun r => r.filename ≠ filename)
  if recompute then do_recompute_global_ids rows' else rows'

/-- Source `BibedDataStore.insert_entry` (`bibed/store.py`, 787–799): append the
entry's row, then recompute the global ids. -/
def insert_entry (rows : List StoreRow) (row : StoreRow) : List StoreRow :=
  do_recompute_global_ids (rows ++ [row])

/-- Source `BibedDataStore.delete_entry` (`bibed/store.py`, 825–840): remove every
row whose `GLOBAL_ID` column equals the entry's gid, then recompute. -/
def delete_entry (rows : List StoreRow) (gid : Nat) : List StoreRow :=
  do_recompute_global_ids (rows.filter (fun r => r.global_id ≠ gid))

/-- One structural operation on the flattened data store, as performed by
`BibedFileStore`/`BibedDataStore` (`bibed/store.py`):

* `load rows` — `BibedFileStore.parse` called from `load` with a user or
  system file (`impact_data_store=True`, `recompute=True`, the defaults):
  appends one row per parsed entry, then `do_recompute_global_ids`
  (lines 476–492).
* `loadTransient` — `load` with `FileTypes.TRANSIENT` sets
  `impact_data_store=False`, so the data store is untouched (509–512).
* `close f` — `close` on a user or system file calls
  `clear_data(filename, recompute=True)` (606–607, 654–668).
* `closeTransient` — `close` on a transient file sets
  `impact_data_store=False` (583–585): data store untouched.
* `insert` / `delete` — `insert_entry` / `delete_entry` above.
* `trash` / `restore` — `trash_entries` / `untrash_entries` (162–219)
  move entries between databases and write files; neither touches the
  data-store rows. -/
inductive StoreOp where
  | load (newRows : List StoreRow)
  | loadTransient
  | close (filename : String)
  | closeTransient
  | insert (row : StoreRow)
  | delete (gid : Nat)
  | trash
  | restore

/-- Effect of one structural operation on the data-store rows. -/
def applyStoreOp (rows : List StoreRow) : StoreOp → List StoreRow
  | StoreOp.load newRows => do_recompute_global_ids (rows ++ newRows)
  | StoreOp.loadTransient => rows
  | StoreOp.close f => dataStore_clear_data rows f true
  | StoreOp.closeTransient => rows
  | StoreOp.insert row => insert_entry rows row
  | StoreOp.delete gid => delete_entry rows gid
  | StoreOp.trash => rows
  | StoreOp.restore => rows

/-- Effect of a sequence of structural operations, first operation first. -/
def applyStoreOps (ops : List StoreOp) (rows : List StoreRow) : List StoreRow :=
  ops.foldl applyStoreOp rows

/-- Density: the rows' global ids, read in store order, are exactly
`0, 1, …, N-1` — equivalently the *set* of global ids is `{0 … N-1}`. -/
def denseStore (rows : List StoreRow) : Prop :=
  rows.map StoreRow.global_id = List.range rows.length

theorem dense_do_recompute_global_ids (rows : List StoreRow) :
    denseStore (do_recompute_global_ids rows) := by
  unfold denseStore do_recompute_global_ids
  rw [List.map_map, List.length_map]
  have h : (StoreRow.global_id ∘ fun p : Nat × StoreRow =>
      { p.2 with global_id := p.1 }) = Prod.fst := by
    funext p
    rfl
  rw [h, List.enum_map_fst, List.enum_length]

theorem dense_applyStoreOp (rows : List StoreRow) (op : StoreOp)
    (h : denseStore rows) : denseStore (applyStoreOp rows op) := by
  cases op with
  | load newRows => exact dense_do_recompute_global_ids _
  | loadTransient => exact h
  | close f =>
      simp only [applyStoreOp, dataStore_clear_data, if_true]
      exact dense_do_recompute_global_ids _
  | closeTransient => exact h
  | insert row => exact dense_do_recompute_global_ids _
  | delete gid => exact dense_do_recompute_global_ids _
  | trash => exact h
  | restore => exact h

/-! ### C3 -/

/-- Claim C3, confirmed.  Starting from the initial empty data store, after
every sequence of load / close / trash / restore / insert / delete
operations the global ids of the flattened data store, in row order, are
exactly `0 … N-1` where `N` is the number of rows: every operation that
touches the rows ends with `do_recompute_global_ids`, and the operations
that do not touch them preserve the density. -/
theorem C3_global_ids_dense (ops : List StoreOp) :
    denseStore (applyStoreOps ops []) := by
  suffices h : ∀ rows, denseStore rows → denseStore (applyStoreOps ops rows) by
    exact h [] rfl
  induction ops with
  | nil => exact fun rows h => h
  | cons op rest ih =>
      intro rows h
      exact ih _ (dense_applyStoreOp rows op h)

/-! ## The global write lock and `trigger_save`
(`bibed/store.py`, lines 116, 670–703)

`self.file_write_lock = RLock()` — a *re-entrant* lock: a non-blocking
`acquire` made by the thread that already owns the lock succeeds and
increments the recursion count (CPython `threading.RLock` semantics);
only an acquire from a *different* thread fails. -/

structure RLockState where
  owner : Option Nat
  count : Nat
  deriving DecidableEq, Repr

/-- Source `RLock.acquire(blocking=False)` called by thread `t`: succeeds when the
lock is free or already owned by `t` (re-entrant), fails otherwise. -/
def rlock_try_acquire (t : Nat) (l : RLockState) : Bool × RLockState :=
  match l.owner with
  | none => (true, ⟨some t, 1⟩)
  | some o => if o = t then (true, ⟨some o, l.count + 1⟩) else (false, l)

/-- Source `RLock.release()`: decrements the recursion count, freeing the lock
when it reaches zero. -/
def rlock_release (l : RLockState) : RLockState :=
  if l.count ≤ 1 then ⟨none, 0⟩ else ⟨l.owner, l.count - 1⟩

/-- State of the save-trigger machinery of `BibedFileStore`: the global
write lock, the `GLib` idle queue holding the scheduled
`save_trigger_callback(filename)` calls, and the `write()` calls performed
so far (the filenames written, in order). -/
structure TriggerState where
  lock : RLockState
  idleQueue : List String
  writes : List String
  deriving DecidableEq, Repr

/-- Initial state: lock free, nothing scheduled, nothing written. -/
def triggerInit : TriggerState := ⟨⟨none, 0⟩, [], []⟩

/-- Source `BibedFileStore.trigger_save` (`bibed/store.py`, 670–691) called from
thread `t`:

```python
if self.file_write_lock.acquire(blocking=False) is False:
    return
self.save_trigger_source = GLib.idle_add(
    self.save_trigger_callback, filename)
```
-/
def trigger_save (t : Nat) (filename : String) (s : TriggerState) : TriggerState :=
  let (ok, lock') := rlock_try_acquire t s.lock
  if ok then { s with lock := lock', idleQueue := s.idleQueue ++ [filename] }
  else s

/-- Source `BibedFileStore.save_trigger_callback` (`bibed/store.py`, 693–703):
performs `self.save(filename)` — one `write()` against that filename's
database — then releases the lock once.  Returning `None`, the callback is
removed from the idle queue after one run. -/
def save_trigger_callback (filename : String) (s : TriggerState) : TriggerState :=
  { s with lock := rlock_release s.lock, writes := s.writes ++ [filename] }

/-- The GLib main loop, once idle, runs every scheduled
`save_trigger_callback` in schedule order. -/
def run_idle_queue (s : TriggerState) : TriggerState :=
  s.idleQueue.foldl (fun st f => save_trigger_callback f st)
    { s with idleQueue := [] }

/-- Five rapid `trigger_save(p)` calls from one thread `t` (the primary
GUI thread), followed by idle processing. -/
def five_trigger_saves (t : Nat) (p : String) : TriggerState :=
  run_idle_queue
    (trigger_save t p (trigger_save t p (trigger_save t p
      (trigger_save t p (trigger_save t p triggerInit)))))

/-! ### C2 -/

/-- Claim C2, code bug.  The claim (and the docstring of `trigger_save`:
“will just trigger *one* save operation”) says five rapid
`trigger_save(p)` calls schedule exactly one deferred write, the
subsequent calls finding the lock held and being dropped.  But the global
write lock is a *re-entrant* `RLock` and all five calls run on the same
primary thread, so every call's non-blocking `acquire` succeeds and
schedules another idle callback: five `write()` calls are performed
against the database, not one. -/
theorem C2_trigger_save_not_coalesced :
    (five_trigger_saves 0 "a.bib").writes = ["a.bib", "a.bib", "a.bib", "a.bib", "a.bib"]
    ∧ (five_trigger_saves 0 "a.bib").writes.length = 5
    ∧ (five_trigger_saves 0 "a.bib").lock = ⟨none, 0⟩ := by
  refine ⟨rfl, rfl, rfl⟩

/-! ## `BibedFileStore.load` / `close` file counters
(`bibed/store.py`, lines 494–541 and 564–610)

The store caches `num_user` and `num_system`.  `load` increments them with

```python
if filetype == FileTypes.USER:
    self.num_user += 1
elif filetype & FileTypes.SYSTEM:
    self.num_system += 1
```

while `close` decrements them with

```python
if database.filetype == FileTypes.USER:
    self.num_user -= 1
elif database.filetype == FileTypes.SYSTEM:
    self.num_system -= 1
elif database.filetype == FileTypes.TRANSIENT:
    ...
```

— note `==` against the composite mask `FileTypes.SYSTEM` where `load`
used the bitwise `&`. -/

structure FileStoreState where
  databases : List (String × Nat)
  num_user : Int
  num_system : Int
  deriving DecidableEq, Repr

def fileStoreInit : FileStoreState := ⟨[], 0, 0⟩

/-- Source `BibedFileStore.has` (`bibed/store.py`, 304–313). -/
def fileStore_has (s : FileStoreState) (filename : String) : Bool :=
  s.databases.any (fun db => db.1 = filename)

/-- Counter and registry effect of `BibedFileStore.load` (`bibed/store.py`,
494–541): raises `AlreadyLoadedException` when the filename is tracked,
otherwise parses, bumps the matching counter and appends the database. -/
def fileStore_load (s : FileStoreState) (filename : String) (filetype : Nat) :
    Option FileStoreState :=
  if fileStore_has s filename then none
  else some
    { s with
      databases := s.databases ++ [(filename, filetype)]
      num_user := if filetype = FileTypes.USER then s.num_user + 1 else s.num_user
      num_system :=
        if filetype = FileTypes.USER then s.num_system
        else if filetype &&& FileTypes.SYSTEM ≠ 0 then s.num_system + 1
        else s.num_system }

/-- Counter and registry effect of `BibedFileStore.close` (`bibed/store.py`,
564–610): finds the first database with the given filename, decrements
`num_user` when its filetype equals `FileTypes.USER`, decrements
`num_system` when its filetype equals the composite mask
`FileTypes.SYSTEM`, and removes the database. -/
def fileStore_close (s : FileStoreState) (filename : String) :
    Option FileStoreState :=
  match s.databases.find? (fun db => db.1 = filename) with
  | none => none
  | some db => some
    { s with
      databases := s.databases.eraseP (fun d => d.1 = filename)
      num_user := if db.2 = FileTypes.USER then s.num_user - 1 else s.num_user
      num_system :=
        if db.2 = FileTypes.USER then s.num_system
        else if db.2 = FileTypes.SYSTEM then s.num_system - 1
        else s.num_system }

/-- Number of currently open databases whose filetype is one of the
system filetypes (trash, queue, imported). -/
def countSystemDatabases (s : FileStoreState) : Nat :=
  (s.databases.filter (fun db =>
    db.2 = FileTypes.TRASH ∨ db.2 = FileTypes.QUEUE
      ∨ db.2 = FileTypes.IMPORTED)).length

/-! ### C10 -/

/-- Claim C10, code bug.  Loading the trash file then closing it leaves
`num_system = 1` while no system database remains open: `close` compares
the database's filetype with `==` against the composite mask
`FileTypes.SYSTEM` (`0x00ff000`), which no concrete filetype (`TRASH` =
`0x0001000`, `QUEUE`, `IMPORTED`) ever equals, so the decrement branch is
unreachable and the claimed invariant fails after one load/close pair. -/
theorem C10_num_system_not_decremented :
    (fileStore_load fileStoreInit "trash.bib" FileTypes.TRASH).bind
        (fun s => fileStore_close s "trash.bib")
      = some ⟨[], 0, 1⟩
    ∧ countSystemDatabases ⟨[], 0, 1⟩ = 0
    ∧ (FileStoreState.mk [] 0 1).num_system = 1 := by
  refine ⟨by decide, by decide, rfl⟩

/-! ## `BibedDatabase.__init__` key indexing (`bibed/database.py`, lines 20–44)

```python
self.entries = {}
for index, entry in enumerate(self.bibdb.entries):
    self.entries[entry['ID']] = (entry, index)
```

A raw parsed entry is a bibtexparser dict; for the indexing logic only its
`'ID'` and its identity matter, so we carry the `ID` and an opaque payload
distinguishing occurrences.  A Python dict is embedded as an association
list with insert-or-overwrite assignment. -/

structure RawEntry where
  ID : String
  payload : Nat
  deriving DecidableEq, Repr

/-- Python `d[k] = v` on a dict embedded as an association list: overwrite
in place when the key is present, append otherwise. -/
def dict_insert (m : List (String × RawEntry × Nat)) (k : String)
    (v : RawEntry × Nat) : List (String × RawEntry × Nat) :=
  if m.any (fun p => p.1 = k) then
    m.map (fun p => if p.1 = k then (k, v) else p)
  else m ++ [(k, v)]

/-- Python `d[k]` / `d.get(k)` on the embedded dict. -/
def dict_get? (m : List (String × RawEntry × Nat)) (k : String) :
    Option (RawEntry × Nat) :=
  (m.find? (fun p => p.1 = k)).map (fun p => p.2)

/-- The key index built by the `__init__` loop: each parsed entry is
assigned into `self.entries` under its `'ID'`, in parse order, a repeated
`'ID'` overwriting the earlier assignment. -/
def bibedDatabase_init_index (parsed : List RawEntry) :
    List (String × RawEntry × Nat) :=
  parsed.enum.foldl (fun m p => dict_insert m p.2.ID (p.2, p.1)) []

/-- Errors the `BibedDatabase` constructor could raise while indexing. -/
inductive DatabaseError where
  | duplicateKey
  deriving DecidableEq, Repr

/-- Source `BibedDatabase.__init__` on already-parsed content: the indexing loop
runs unconditionally and the constructor contains no `raise`, so it always
succeeds with the built index. -/
def bibedDatabase_init (parsed : List RawEntry) :
    Except DatabaseError (List (String × RawEntry × Nat)) :=
  Except.ok (bibedDatabase_init_index parsed)

/-! ### C4 -/

/-- Claim C4, counterexample.  The claim states that a file whose parsed
content holds the same citation key twice fails at constructor time with
`DuplicateKeyError`.  On the two-entry parse `[⟨"k", 0⟩, ⟨"k", 1⟩]` the
constructor instead succeeds, the second assignment silently overwriting
the first in the key index. -/
theorem C4_duplicate_key_not_rejected :
    bibedDatabase_init [⟨"k", 0⟩, ⟨"k", 1⟩]
      = Except.ok [("k", ⟨"k", 1⟩, 1)]
    ∧ (bibedDatabase_init [⟨"k", 0⟩, ⟨"k", 1⟩]).isOk = true := by
  refine ⟨rfl, rfl⟩

/-- Claim C4, amended.  `BibedDatabase.__init__` never raises
`DuplicateKeyError`: it succeeds on every parsed content, and a key that
parses twice within one file is silently absorbed into the key index,
which retains the last parsed occurrence (witnessed on a two-entry file
with duplicated key `"k"`). -/
theorem C4_duplicate_key_last_wins :
    (∀ parsed : List RawEntry, (bibedDatabase_init parsed).isOk = true)
    ∧ dict_get? (bibedDatabase_init_index [⟨"k", 0⟩, ⟨"k", 1⟩]) "k"
        = some (⟨"k", 1⟩, 1) := by
  exact ⟨fun _ => rfl, by decide⟩

/-! ## Store-level key lookups (`bibed/store.py`, lines 329–367)

For `has_bib_key` and `get_entry_by_key` a database is its filename, its
filetype and its ordered entries; of an entry these operations read the
citation key (`entry.key`, the `'ID'` field) and the raw `'ids'` alias
field (`entry.get_field('ids', '')`). -/

structure SEntry where
  key : String
  ids_raw : String
  deriving DecidableEq, Repr

structure SDatabase where
  filename : String
  filetype : Nat
  entries : List SEntry
  deriving DecidableEq, Repr

/-- Helper for `pySplit`: split a character list at every occurrence of
`sep`, keeping empty segments, accumulating the current segment reversed. -/
def pySplitAux (sep : Char) : List Char → List Char → List String
  | [], acc => [String.mk acc.reverse]
  | c :: rest, acc =>
      if c = sep then String.mk acc.reverse :: pySplitAux sep rest []
      else pySplitAux sep rest (c :: acc)

/-- Python `s.split(sep)` for a one-character separator: splits at every
occurrence, keeps empty segments, never strips
(`''.split(',') == ['']`, `'a, b'.split(',') == ['a', ' b']`). -/
def pySplit (sep : Char) (s : String) : List String :=
  pySplitAux sep s.toList []

/-- Source of the `ids` property setter (`bibed/entry.py`, 535–539):

```python
self.bib_dict['ids'] = ', '.join(v for v in value
                                 if v not in (None, ''))
```
-/
def ids_setter (value : List String) : String :=
  ", ".intercalate (value.filter (fun v => v ≠ ""))

/-- Source `BibedFileStore.has_bib_key` (`bibed/store.py`, 329–344):

```python
for database in self:
    for entry in database.itervalues():
        if key == entry.key:
            return database.filename
        # look in aliases (valid old key values) too.
        if key in entry.get_field('ids', '').split(','):
            return database.filename
return None
```

`split(',')` does not strip the segments (`str.split` keeps the space of
the `', '` join). -/
def has_bib_key (store : List SDatabase) (key : String) : Option String :=
  store.findSome? fun db =>
    db.entries.findSome? fun e =>
      if key = e.key then some db.filename
      else if (pySplit ',' e.ids_raw).contains key then some db.filename
      else none

/-- Source `BibedDatabase.get_entry_by_key` (`bibed/database.py`, 46–50): a dict
access `self.entries[key]`, raising `KeyError` when absent. -/
def db_get_entry_by_key (db : SDatabase) (key : String) : Except Unit SEntry :=
  match db.entries.find? (fun e => e.key = key) with
  | some e => Except.ok e
  | none => Except.error ()

/-- Store-level lookup failures (`bibed/exceptions.py`):
`BibKeyNotFoundError`, and an uncaught Python `KeyError`. -/
inductive StoreLookupError where
  | bibKeyNotFound
  | keyError
  deriving DecidableEq, Repr

/-- Source `BibedFileStore.get_entry_by_key` (`bibed/store.py`, 346–367):

```python
if filename is None:
    for database in self:
        try:
            database.get_entry_by_key(key)
        except KeyError:
            # We must test all databases prior to raising “not found”.
            pass
    raise BibKeyNotFoundError
else:
    try:
        return self.get_database(filename).get_entry_by_key(key)
    except NoDatabaseForFilenameError:
        raise BibKeyNotFoundError
```

In the hint-less branch the loop body computes
`database.get_entry_by_key(key)` and discards the result (there is no
`return`), so the branch always falls through to
`raise BibKeyNotFoundError`.  In the hinted branch only
`NoDatabaseForFilenameError` is caught, so a `KeyError` from the
database's dict access propagates. -/
def store_get_entry_by_key (store : List SDatabase) (key : String)
    (filename : Option String) : Except StoreLookupError SEntry :=
  match filename with
  | none =>
      let _ := store.map (fun db => db_get_entry_by_key db key)
      Except.error StoreLookupError.bibKeyNotFound
  | some f =>
      match store.find? (fun db => db.filename = f) with
      | none => Except.error StoreLookupError.bibKeyNotFound
      | some db =>
          match db_get_entry_by_key db key with
          | Except.ok e => Except.ok e
          | Except.error _ => Except.error StoreLookupError.keyError

/-! ### C5 -/

/-- Claim C5, code bug.  With no filename hint, `get_entry_by_key` is meant
to return the matching entry whenever the key lives in some open database
and raise `BibKeyNotFoundError` only when it is absent everywhere (the
loop's own comment: “We must test all databases prior to raising
‘not found’”).  But the loop discards each lookup result — the `return`
is missing — so the call raises `BibKeyNotFoundError` even for a key that
is present: on a store holding `"k"` in `a.bib`, the lookup of `"k"`
succeeds at the database level yet the store-level call errors. -/
theorem C5_get_entry_by_key_always_raises :
    store_get_entry_by_key [⟨"a.bib", FileTypes.USER, [⟨"k", ""⟩]⟩] "k" none
      = Except.error StoreLookupError.bibKeyNotFound
    ∧ db_get_entry_by_key ⟨"a.bib", FileTypes.USER, [⟨"k", ""⟩]⟩ "k"
        = Except.ok ⟨"k", ""⟩
    ∧ has_bib_key [⟨"a.bib", FileTypes.USER, [⟨"k", ""⟩]⟩] "k"
        = some "a.bib" := by
  refine ⟨rfl, rfl, by decide⟩

/-! ### C7 -/

/-- Claim C7, code bug.  The claim says `has_bib_key` returns the path of an
open database whenever the key equals any alias stored in an entry's
`ids` field, including aliases written by the `ids` setter, which joins
with `', '`.  The setter stores `"old1, old2"`, but `has_bib_key` tests
`key in ids.split(',')` without stripping, so the second alias is only
present as `" old2"` and the lookup of `"old2"` returns `None`, while the
first alias and the primary key are found (elsewhere the code strips
after splitting: `BibedEntry.ids`, `BibedDatabase.move_entry`). -/
theorem C7_has_bib_key_misses_second_alias :
    ids_setter ["old1", "old2"] = "old1, old2"
    ∧ has_bib_key
        [⟨"a.bib", FileTypes.USER, [⟨"k2020", ids_setter ["old1", "old2"]⟩]⟩]
        "old2" = none
    ∧ has_bib_key
        [⟨"a.bib", FileTypes.USER, [⟨"k2020", ids_setter ["old1", "old2"]⟩]⟩]
        "old1" = some "a.bib"
    ∧ has_bib_key
        [⟨"a.bib", FileTypes.USER, [⟨"k2020", ids_setter ["old1", "old2"]⟩]⟩]
        "k2020" = some "a.bib" := by
  refine ⟨by decide, by decide, by decide, by decide⟩

/-! ## Trash and restore (`bibed/store.py`, lines 162–219;
`bibed/entry.py`, lines 463–501)

For `trash_entries` / `untrash_entries` an entry carries its citation key
and the `trashedFrom` / `trashedDate` markers kept in the `verbb`
side-channel field (`BibedEntry.set_trashed`, `trashed_informations`);
a database carries its filename, filetype and ordered entries.  The disk
is the set of loadable files with their parsed contents. -/

structure TEntry where
  key : String
  trashedFrom : Option String
  trashedDate : Option String
  deriving DecidableEq, Repr

structure TDatabase where
  filename : String
  filetype : Nat
  entries : List TEntry
  deriving DecidableEq, Repr

/-- Source `BibedEntry.set_trashed(True)` (`bibed/entry.py`, 484–501): requires
the entry not already trashed and records the owning database's filename
and today's date in the `verbb` side channel. -/
def set_trashed_true (origin today : String) (e : TEntry) : TEntry :=
  { e with trashedFrom := some origin, trashedDate := some today }

/-- Source `BibedEntry.set_trashed(False)` (`bibed/entry.py`, 484–501): requires
the entry trashed and deletes both markers from the `verbb` side
channel. -/
def set_trashed_false (e : TEntry) : TEntry :=
  { e with trashedFrom := none, trashedDate := none }

/-- Modelled from the spec: the two-argument
`BibedDatabase.move_entry(entry, destination_database)` invoked by
`trash_entries` (`bibed/store.py`, 178) and `untrash_entries` (211) is not
among the source files — the `bibed/database.py` present holds an older
one-argument key-rename variant — so it is taken from the spec, §4.3:
“moves it from its origin Database to the Trash-role Database (remove
from source, add to destination, key index updated in both)”.  Databases
are identified by filename; the entry is removed from the source
database's sequence and appended to the destination's. -/
def move_entry (dbs : List TDatabase) (src dst : String) (e : TEntry) :
    List TDatabase :=
  dbs.map fun db =>
    if db.filename = src then
      { db with entries := db.entries.filter (fun x => x.key ≠ e.key) }
    else if db.filename = dst then
      { db with entries := db.entries ++ [e] }
    else db

/-- Source `BibedFileStore.trash_entries` (`bibed/store.py`, 162–181) for one
entry, referenced by its owning database's filename and its key:

```python
trash_database = self.get_database(filetype=FileTypes.TRASH)
...
entry.set_trashed()
databases_to_write.add(entry.database)
entry.database.move_entry(entry, trash_database)
...
database.write()
```

`none` models a failed lookup or the `assert not self.is_trashed`
precondition of `set_trashed`; `write()` does not change the in-memory
state. -/
def trash_one (dbs : List TDatabase) (today originF k : String) :
    Option (List TDatabase) :=
  match dbs.find? (fun db => db.filetype = FileTypes.TRASH) with
  | none => none
  | some tdb =>
    match dbs.find? (fun db => db.filename = originF) with
    | none => none
    | some odb =>
      match odb.entries.find? (fun x => x.key = k) with
      | none => none
      | some e =>
        match e.trashedFrom with
        | some _ => none
        | none =>
          some (move_entry dbs odb.filename tdb.filename
            (set_trashed_true odb.filename today e))

/-- Outcome of `untrash_entries` for one entry: either the new store
state, or the builtin `FileNotFoundError` escaping from
`self.load(filename=trashed_from, filetype=FileTypes.TRANSIENT)` when the
origin file is missing from disk.  A Python exception does not undo the
mutations already performed, so the error carries the store state at
raise time. -/
inductive UntrashOutcome where
  | ok (dbs : List TDatabase)
  | fileNotFound (dbs : List TDatabase)
  deriving DecidableEq, Repr

/-- Source `BibedFileStore.untrash_entries` (`bibed/store.py`, 183–219) for one
entry, referenced by its key inside the trash database:

```python
trash_database = self.get_database(filetype=FileTypes.TRASH)
...
trashed_from, trashed_date = entry.trashed_informations
entry.set_trashed(False)                       # markers wiped HERE
try:
    database = self.get_database(filename=trashed_from)
except NoDatabaseForFilenameError:
    self.load(filename=trashed_from,           # raises FileNotFoundError
              filetype=FileTypes.TRANSIENT)    # when missing from disk
    database = self.get_database(filename=trashed_from)
    databases_to_unload.add(database)
trash_database.move_entry(entry, database)
...
database.write()
...
self.close(database.filename)                  # transient unload
```

The entry is mutated in place inside the trash database *before* the
origin lookup, so the `fileNotFound` outcome carries the store with the
markers already cleared. -/
def untrash_one (dbs : List TDatabase) (disk : List (String × List TEntry))
    (k : String) : Option UntrashOutcome :=
  match dbs.find? (fun db => db.filetype = FileTypes.TRASH) with
  | none => none
  | some tdb =>
    match tdb.entries.find? (fun x => x.key = k) with
    | none => none
    | some e =>
      match e.trashedFrom, e.trashedDate with
      | some f, some _ =>
        let e' := set_trashed_false e
        let dbs1 := dbs.map fun db =>
          if db.filename = tdb.filename then
            { db with
              entries := db.entries.map (fun x => if x.key = k then e' else x) }
          else db
        match dbs1.find? (fun db => db.filename = f) with
        | some _ => some (UntrashOutcome.ok (move_entry dbs1 tdb.filename f e'))
        | none =>
          match disk.find? (fun p => p.1 = f) with
          | none => some (UntrashOutcome.fileNotFound dbs1)
          | some p =>
            let dbs2 := dbs1 ++ [⟨f, FileTypes.TRANSIENT, p.2⟩]
            let dbs3 := move_entry dbs2 tdb.filename f e'
            some (UntrashOutcome.ok (dbs3.eraseP (fun db => db.filename = f)))
      | _, _ => none

/-! ### C6 -/

/-- Claim C6, counterexample.  The claim states that restoring a trashed
entry whose origin file is missing fails with `OriginNotFoundError`, the
entry remaining in the Trash database unchanged, still carrying its
trashed-from and trashed-date markers.  On a store whose trash database
holds the entry `⟨"x", trashedFrom := "b.bib", trashedDate :=
"2021-05-05"⟩` with `b.bib` neither open nor on disk, `untrash_entries`
instead escapes with the builtin `FileNotFoundError` raised by the
transient `load` (no `OriginNotFoundError` exists in
`bibed/exceptions.py`), and the entry left in the Trash database has both
markers already wiped by the `entry.set_trashed(False)` performed before
the origin lookup — a partial mutation is observable. -/
theorem C6_untrash_counterexample :
    untrash_one
        [⟨"trash.bib", FileTypes.TRASH, [⟨"x", some "b.bib", some "2021-05-05"⟩]⟩]
        [] "x"
      = some (UntrashOutcome.fileNotFound
          [⟨"trash.bib", FileTypes.TRASH, [⟨"x", none, none⟩]⟩])
    ∧ (TEntry.mk "x" none none).trashedFrom = none
    ∧ (TEntry.mk "x" none none).trashedDate = none := by
  refine ⟨rfl, rfl, rfl⟩

/-- Claim C6, amended.  For every trashed entry whose origin file is neither
open nor present on disk, `untrash_entries` fails with the builtin
`FileNotFoundError` escaping from the transient `load` of the origin
(`OriginNotFoundError` does not exist in the code), and the entry remains
in the Trash database — still under its key — but with its trashed-from
and trashed-date markers already cleared, because `set_trashed(False)`
runs before the origin lookup: the partial mutation of the entry is
observable after the failure. -/
theorem C6_untrash_missing_origin (dbs : List TDatabase)
    (disk : List (String × List TEntry)) (k f d : String) (tdb : TDatabase)
    (e : TEntry)
    (h1 : dbs.find? (fun db => db.filetype = FileTypes.TRASH) = some tdb)
    (h2 : tdb.entries.find? (fun x => x.key = k) = some e)
    (h3 : e.trashedFrom = some f)
    (h3d : e.trashedDate = some d)
    (h4 : ∀ db ∈ dbs, db.filename ≠ f)
    (h5 : ∀ p ∈ disk, p.1 ≠ f) :
    untrash_one dbs disk k
      = some (UntrashOutcome.fileNotFound (dbs.map fun db =>
          if db.filename = tdb.filename then
            { db with
              entries := db.entries.map
                (fun x => if x.key = k then set_trashed_false e else x) }
          else db))
    ∧ (set_trashed_false e).key = k
    ∧ (set_trashed_false e).trashedFrom = none
    ∧ (set_trashed_false e).trashedDate = none
    ∧ (tdb.entries.map
        (fun x => if x.key = k then set_trashed_false e else x)).any
          (fun x => x.key = k) = true := by
  have hek : e.key = k := by
    have h := List.find?_some h2
    simpa using h
  have hmem : e ∈ tdb.entries := List.mem_of_find?_eq_some h2
  have hnone1 : ((dbs.map fun db =>
      if db.filename = tdb.filename then
        { db with
          entries := db.entries.map
            (fun x => if x.key = k then set_trashed_false e else x) }
      else db).find? (fun db => db.filename = f)) = none := by
    rw [List.find?_eq_none]
    intro x hx
    rcases List.mem_map.mp hx with ⟨y, hy, hxy⟩
    have hfn : x.filename = y.filename := by
      rw [← hxy]
      by_cases hc : y.filename = tdb.filename <;> simp [hc]
    simp [hfn, h4 y hy]
  have hnone2 : disk.find? (fun p => p.1 = f) = none := by
    rw [List.find?_eq_none]
    intro p hp
    simp [h5 p hp]
  refine ⟨?_, ?_, rfl, rfl, ?_⟩
  · unfold untrash_one
    simp only [h1, h2, h3, h3d, hnone1, hnone2]
  · simp [set_trashed_false, hek]
  · rw [List.any_eq_true]
    refine ⟨set_trashed_false e, List.mem_map.mpr ⟨e, hmem, by simp [hek]⟩, ?_⟩
    simp [set_trashed_false, hek]

/-- Claim C6, witness.  The amended theorem applied to the concrete store
whose trash database holds `⟨"k", trashedFrom := "a.bib", trashedDate :=
"2020-01-01"⟩`, with `a.bib` neither open nor on disk. -/
theorem C6_untrash_missing_origin_witness :
    untrash_one
        [⟨"trash.bib", FileTypes.TRASH, [⟨"k", some "a.bib", some "2020-01-01"⟩]⟩]
        [] "k"
      = some (UntrashOutcome.fileNotFound
          [⟨"trash.bib", FileTypes.TRASH, [⟨"k", none, none⟩]⟩]) := by
  have h := C6_untrash_missing_origin
    [⟨"trash.bib", FileTypes.TRASH, [⟨"k", some "a.bib", some "2020-01-01"⟩]⟩]
    [] "k" "a.bib" "2020-01-01"
    ⟨"trash.bib", FileTypes.TRASH, [⟨"k", some "a.bib", some "2020-01-01"⟩]⟩
    ⟨"k", some "a.bib", some "2020-01-01"⟩
    (by decide) (by decide) rfl rfl (by decide) (by simp)
  simpa using h.1

/-! ### C8 -/

/-- Claim C8, confirmed (against the spec-modelled `move_entry`, see its
doc comment).  For every entry `e` with key `k` living in an open origin
database and not yet trashed, with the Trash database open and holding no
entry keyed `k`: `trash_entries([e])` moves `e` into the Trash database
with the trashed-from marker set to the origin's filename, and a
subsequent `untrash_entries([e])` returns `e` — same key, markers cleared
back to their original `none` — to its original file, the Trash database
ending exactly as it started, without the entry. -/
theorem C8_trash_restore_roundtrip (fo ft today k : String)
    (eso est : List TEntry) (e : TEntry)
    (disk : List (String × List TEntry))
    (h1 : fo ≠ ft)
    (h2 : eso.find? (fun x => x.key = k) = some e)
    (h3 : e.trashedFrom = none)
    (h4 : e.trashedDate = none)
    (h5 : ∀ x ∈ est, x.key ≠ k) :
    trash_one [⟨fo, FileTypes.USER, eso⟩, ⟨ft, FileTypes.TRASH, est⟩] today fo k
      = some [⟨fo, FileTypes.USER, eso.filter (fun x => x.key ≠ k)⟩,
              ⟨ft, FileTypes.TRASH, est ++ [set_trashed_true fo today e]⟩]
    ∧ untrash_one
        [⟨fo, FileTypes.USER, eso.filter (fun x => x.key ≠ k)⟩,
         ⟨ft, FileTypes.TRASH, est ++ [set_trashed_true fo today e]⟩] disk k
      = some (UntrashOutcome.ok
          [⟨fo, FileTypes.USER, eso.filter (fun x => x.key ≠ k) ++ [e]⟩,
           ⟨ft, FileTypes.TRASH, est⟩])
    ∧ e.key = k
    ∧ est.any (fun x => x.key = k) = false := by
  have hek : e.key = k := by simpa using List.find?_some h2
  have hft : ft ≠ fo := Ne.symm h1
  have he' : set_trashed_false (set_trashed_true fo today e) = e := by
    obtain ⟨ek, etf, etd⟩ := e
    simp only [TEntry.mk.injEq] at h3 h4
    simp [set_trashed_true, set_trashed_false, h3, h4]
  have hconj4 : est.any (fun x => x.key = k) = false := by
    rw [← Bool.not_eq_true, List.any_eq_true]
    rintro ⟨x, hx, hkx⟩
    exact h5 x hx (by simpa using hkx)
  refine ⟨?_, ?_, hek, hconj4⟩
  · have hfindT : List.find? (fun db => db.filetype = FileTypes.TRASH)
        ([⟨fo, FileTypes.USER, eso⟩, ⟨ft, FileTypes.TRASH, est⟩] : List TDatabase)
        = some ⟨ft, FileTypes.TRASH, est⟩ := by
      rw [List.find?_cons_of_neg _ Bool.false_ne_true, List.find?_cons_of_pos _ rfl]
    have hfindF : List.find? (fun db => db.filename = fo)
        ([⟨fo, FileTypes.USER, eso⟩, ⟨ft, FileTypes.TRASH, est⟩] : List TDatabase)
        = some ⟨fo, FileTypes.USER, eso⟩ := by
      rw [List.find?_cons_of_pos _ (by simp)]
    unfold trash_one
    simp only [hfindT, hfindF, h2, h3]
    simp [move_entry, set_trashed_true, hek, hft]
  · have hfindT : List.find? (fun db => db.filetype = FileTypes.TRASH)
        ([⟨fo, FileTypes.USER, eso.filter (fun x => x.key ≠ k)⟩,
          ⟨ft, FileTypes.TRASH, est ++ [set_trashed_true fo today e]⟩] : List TDatabase)
        = some ⟨ft, FileTypes.TRASH, est ++ [set_trashed_true fo today e]⟩ := by
      rw [List.find?_cons_of_neg _ Bool.false_ne_true, List.find?_cons_of_pos _ rfl]
    have hfindE : List.find? (fun x => x.key = k)
        (est ++ [set_trashed_true fo today e])
        = some (set_trashed_true fo today e) := by
      rw [List.find?_append, List.find?_eq_none.mpr, Option.none_or,
        List.find?_cons_of_pos _ (by simp [set_trashed_true, hek])]
      intro x hx
      simp [h5 x hx]
    have hfrom : (set_trashed_true fo today e).trashedFrom = some fo := rfl
    have hdate : (set_trashed_true fo today e).trashedDate = some today := rfl
    have hmap : (est ++ [set_trashed_true fo today e]).map
        (fun x => if x.key = k then e else x) = est ++ [e] := by
      rw [List.map_append]
      congr 1
      · have hid := List.map_congr_left
          (l := est) (f := fun x => if x.key = k then e else x) (g := id)
          (fun a ha => by simp [h5 a ha])
        simpa using hid
      · simp [set_trashed_true, hek]
    have hfilter : (est ++ [e]).filter (fun x => x.key ≠ e.key) = est := by
      rw [hek, List.filter_append,
        List.filter_eq_self.mpr (fun a ha => by simp [h5 a ha])]
      simp [hek]
    unfold untrash_one
    simp only [hfindT, hfindE, hfrom, hdate, he']
    simp only [List.map_cons, List.map_nil]
    simp only [if_neg h1, if_pos rfl, hmap]
    rw [List.find?_cons_of_pos _ (by simp)]
    simp [move_entry, h1, hft, hfilter]
    intro a ha
    rw [hek]
    exact h5 a ha

/-- Claim C8, witness.  The round-trip theorem applied to the concrete
store of the spec's scenario: `a.bib` holding one entry keyed `doe2020`
and an empty trash database; after `trash` the entry sits in the trash
database with `trashedFrom = a.bib`, and after `restore` it is back in
`a.bib` with its original key, the trash database empty again. -/
theorem C8_trash_restore_roundtrip_witness :
    trash_one
        [⟨"a.bib", FileTypes.USER, [⟨"doe2020", none, none⟩]⟩,
         ⟨"trash.bib", FileTypes.TRASH, []⟩] "2020-01-01" "a.bib" "doe2020"
      = some [⟨"a.bib", FileTypes.USER, []⟩,
              ⟨"trash.bib", FileTypes.TRASH,
                [⟨"doe2020", some "a.bib", some "2020-01-01"⟩]⟩]
    ∧ untrash_one
        [⟨"a.bib", FileTypes.USER, []⟩,
         ⟨"trash.bib", FileTypes.TRASH,
           [⟨"doe2020", some "a.bib", some "2020-01-01"⟩]⟩] [] "doe2020"
      = some (UntrashOutcome.ok
          [⟨"a.bib", FileTypes.USER, [⟨"doe2020", none, none⟩]⟩,
           ⟨"trash.bib", FileTypes.TRASH, []⟩]) := by
  have h := C8_trash_restore_roundtrip "a.bib" "trash.bib" "2020-01-01" "doe2020"
    [⟨"doe2020", none, none⟩] [] ⟨"doe2020", none, none⟩ []
    (by decide) rfl rfl rfl (by simp)
  exact ⟨h.1, h.2.1⟩

/-! ## `asciize` (`bibed/strings.py`, lines 16–76 and 113–160)

`asciize(stest, aggressive=True)` applies `TRANSLATION_MAP_FULL` pair by
pair, deletes with `re.sub` every character outside `[.a-z0-9]`
(case-insensitive), replaces every run of `[-._.]` characters by the
substitution `"\1"` — which, written in a non-raw Python string, is the
literal character `chr(1)`, not a back-reference — and strips a leading
`[-._.]*` run and a trailing `[-._.*]*` run.  Every source pattern of the
translation map is a single character, so the sequential `str.replace`
calls are embedded as sequential single-character substitutions. -/

/-- Python `s.replace(c, repl)` for a one-character pattern. -/
def replaceChar (c : Char) (repl : List Char) : List Char → List Char
  | [] => []
  | x :: xs =>
      if x = c then repl ++ replaceChar c repl xs
      else x :: replaceChar c repl xs

/-- Table `TRANSLATION_MAP_FULL` = `LOWER + UPPER + EXTENDED + TYPOGRAPHIC`
(`bibed/strings.py`, lines 16–76), each pair applied in this order.
The lower-case `i` targets of `Ì`/`Î`/`Ï`/`Ĩ` reproduce the source. -/
def TRANSLATION_MAP_FULL : List (Char × String) :=
  [('á', "a"), ('à', "a"), ('â', "a"), ('ä', "a"),
   ('ã', "a"), ('å', "a"), ('ă', "a"), ('ā', "a"), ('æ', "ae"),
   ('ç', "c"),
   ('é', "e"), ('è', "e"), ('ê', "e"), ('ë', "e"), ('ẽ', "e"),
   ('í', "i"), ('ì', "i"), ('î', "i"), ('ï', "i"), ('ĩ', "i"),
   ('ñ', "n"),
   ('ó', "o"), ('ò', "o"), ('ô', "o"), ('ö', "o"),
   ('õ', "o"), ('ø', "o"), ('œ', "oe"),
   ('ú', "u"), ('ù', "u"), ('û', "u"), ('ü', "u"), ('ũ', "u"),
   ('ý', "y"), ('ỳ', "y"), ('ŷ', "y"), ('ÿ', "y"), ('ỹ', "y"),
   ('Á', "A"), ('À', "A"), ('Â', "A"), ('Ä', "A"),
   ('Ã', "A"), ('Å', "A"), ('Ă', "A"), ('Ā', "A"), ('Æ', "AE"),
   ('Ç', "C"),
   ('É', "E"), ('È', "E"), ('Ê', "E"), ('Ë', "E"), ('Ẽ', "E"),
   ('Í', "I"), ('Ì', "i"), ('Î', "i"), ('Ï', "i"), ('Ĩ', "i"),
   ('Ñ', "N"),
   ('Ó', "O"), ('Ò', "O"), ('Ô', "O"), ('Ö', "O"),
   ('Õ', "O"), ('Ø', "O"), ('Œ', "OE"),
   ('Ú', "U"), ('Ù', "U"), ('Û', "U"), ('Ü', "U"), ('Ũ', "U"),
   ('Ý', "Y"), ('Ỳ', "Y"), ('Ŷ', "Y"), ('Ÿ', "Y"), ('Ỹ', "Y"),
   ('ß', "ss"), ('þ', ""), ('ð', ""), ('µ', ""), ('$', ""),
   ('€', ""), ('§', ""), ('~', ""), ('&', ""), ('/', ""), ('=', ""),
   (Char.ofNat 39, ""), (Char.ofNat 34, ""), ('«', ""), ('»', ""),
   ('“', ""), ('”', ""), ('‘', ""), ('’', ""),
   ('(', ""), (')', ""), ('[', ""), (']', ""), ('\x7b', ""), ('\x7d', ""),
   ('\\', ""), (Char.ofNat 96, ""), ('^', ""), ('%', ""), ('*', ""), ('@', ""),
   (' ', "_"), (' ', "_"),
   ('©', ""), ('®', "")]

/-- A character of the class `[-._]` (plus the duplicated `.` from
`custom_keep`) used by the collapse and strip steps of `asciize`. -/
def isPunctClass (c : Char) : Bool :=
  c = '-' ∨ c = '_' ∨ c = '.'

/-- Helper for `collapsePunct`: `inRun` records whether the previous
character belonged to the punctuation class, so that each maximal run
contributes one `chr(1)`. -/
def collapsePunctAux (inRun : Bool) : List Char → List Char
  | [] => []
  | c :: rest =>
      if isPunctClass c then
        if inRun then collapsePunctAux true rest
        else Char.ofNat 1 :: collapsePunctAux true rest
      else c :: collapsePunctAux false rest

/-- The `re.sub('([-._.])[-._.]*', '\1', stest)` step of `asciize`: each
maximal run of `[-._]` characters is replaced by the literal character
`chr(1)` (the replacement `"\1"` in a non-raw Python string is that
control character, not a back-reference). -/
def collapsePunct (l : List Char) : List Char :=
  collapsePunctAux false l

/-- Source `asciize(stest, aggressive=True)`: translation map, deletion of every
character outside `[.a-z0-9]` (case-insensitive), punctuation-run
collapse, and edge strip (the trailing class `[-._.*]` also holds the
literal `*` of the source's format string). -/
def asciize_aggressive (s : String) : String :=
  let s1 := TRANSLATION_MAP_FULL.foldl
    (fun acc p => replaceChar p.1 p.2.toList acc) s.toList
  let s2 := s1.filter (fun c =>
    c = '.' ∨ ('a' ≤ c ∧ c ≤ 'z') ∨ ('A' ≤ c ∧ c ≤ 'Z') ∨ ('0' ≤ c ∧ c ≤ '9'))
  let s3 := collapsePunct s2
  let s4 := ((s3.dropWhile isPunctClass).reverse.dropWhile
    (fun c => isPunctClass c ∨ c = '*')).reverse
  String.mk s4

/-! ## `EntryKeyGenerator` (`bibed/entry.py`, lines 52–55 and 1101–1214) -/

/-- Python `str.strip()` on its default whitespace (the embedded inputs
only carry ASCII whitespace). -/
def pyStrip (s : String) : String :=
  let ws := fun c : Char => c = ' ' ∨ c = '\t' ∨ c = '\n' ∨ c = '\r'
    ∨ c = '\x0b' ∨ c = '\x0c'
  String.mk ((s.toList.dropWhile ws).reverse.dropWhile ws).reverse

/-- Python `str.lower()` (the strings reaching it here are ASCII once
`asciize` has run). -/
def pyLower (s : String) : String :=
  String.mk (s.toList.map Char.toLower)

/-- The characters of `SPLIT_RE` (`bibed/entry.py`, line 55): space,
non-breaking space, `:`, `,`, `;`, the two quote characters and the
typographic quotes — an alternation of single characters, so
`SPLIT_RE.split` splits at each occurrence. -/
def SPLIT_CHARS : List Char :=
  [' ', ' ', ':', ',', ';', Char.ofNat 39, Char.ofNat 34,
   '«', '»', '“', '”', '‘', '’']

/-- Helper for `pySplitAny`: split at every character of `seps`, keeping
empty segments. -/
def pySplitAnyAux (seps : List Char) : List Char → List Char → List String
  | [], acc => [String.mk acc.reverse]
  | c :: rest, acc =>
      if seps.contains c then
        String.mk acc.reverse :: pySplitAnyAux seps rest []
      else pySplitAnyAux seps rest (c :: acc)

/-- Embedding of `re.split` for an alternation of single characters, as `SPLIT_RE`
performs it. -/
def pySplitAny (seps : List Char) (s : String) : List String :=
  pySplitAnyAux seps s.toList []

/-- Python `author.split('and')` (`bibed/entry.py`, line 1131): split on
the *substring* `and`, keeping empty segments. -/
def pySplitAndAux : List Char → List Char → List String
  | [], acc => [String.mk acc.reverse]
  | 'a' :: 'n' :: 'd' :: rest, acc =>
      String.mk acc.reverse :: pySplitAndAux rest []
  | c :: rest, acc => pySplitAndAux rest (c :: acc)

def pySplitAnd (s : String) : List String :=
  pySplitAndAux s.toList []

/-- Helper `get_last_name` inside `EntryKeyGenerator.format_author`
(`bibed/entry.py`, 1122–1129): `name.rsplit(' ', 1)[1]`, falling back to
the whole name when it holds no space (`IndexError` branch).  The last
segment of the full space-split equals the segment after the last space,
and for a space-less name the single segment is the name itself. -/
def get_last_name (name : String) : String :=
  (pySplit ' ' name).getLastD name

/-- Source `EntryKeyGenerator.format_title` (`bibed/entry.py`, 1109–1117): first
character of each stripped nonempty `SPLIT_RE` segment, then aggressive
`asciize`, then lower-case. -/
def format_title (title : String) : String :=
  let words := (pySplitAny SPLIT_CHARS title).map pyStrip
  let initials := words.filterMap (fun w => w.toList.head?)
  pyLower (asciize_aggressive (String.mk initials))

/-- Source `EntryKeyGenerator.format_author` (`bibed/entry.py`, 1119–1153):
split the author field on the substring `and`; for more than two names
take the first 2 characters of each last name, for exactly two the first
3 characters of each, otherwise the whole last name; `asciize` each piece
and lower-case the join. -/
def format_author (author : String) : String :=
  let names := (pySplitAnd author).map pyStrip
  let last_name :=
    if names.length > 2 then
      String.join (names.map (fun n =>
        asciize_aggressive (String.mk ((get_last_name n).toList.take 2))))
    else if names.length = 2 then
      String.join (names.map (fun n =>
        asciize_aggressive (String.mk ((get_last_name n).toList.take 3))))
    else
      asciize_aggressive (get_last_name (names.headD ""))
  pyLower last_name

/-- Result of `EntryKeyGenerator.generate_new_key`: `pure s` is the
deterministic result `s`; `uuidHex` is the opaque random token returned
when neither author nor title is present (`uuid.uuid4().hex`); `padded s`
is `s` extended with random hexadecimal characters up to
`MINIMUM_BIB_KEY_LENGTH` when `s` is shorter than the minimum. -/
inductive GenKey where
  | pure (s : String)
  | uuidHex
  | padded (s : String)
  deriving DecidableEq, Repr

/-- Source `EntryKeyGenerator.generate_new_key` (`bibed/entry.py`, 1155–1214) on
an entry's relevant fields.  `author` and `title` are the entry's
`author` / `title` display properties — the identity on
brace-, backslash- and markup-free ASCII fields such as the scenario's —
`year` is the `year` property (`None` becomes the empty string), and the
`howpublished` field feeds the `misc` prefix.  The numeric `suffix` is
rendered `'-{:02d}'`. -/
def generate_new_key (etype author title : String) (year : Option Int)
    (howpublished : String) (suffix : Option Nat) : GenKey :=
  let sfx := match suffix with
    | none => ""
    | some n =>
        "-" ++ (if (toString n).length < 2 then "0" ++ toString n else toString n)
  let yearStr := match year with
    | none => ""
    | some y => toString y
  let pfx :=
    if etype ∉ ["book", "article", "misc", "booklet", "thesis", "online"] then
      pyLower (String.mk (etype.toList.take 1)) ++ ":"
    else if etype = "misc" then
      if howpublished ≠ "" then
        pyLower (String.mk (howpublished.toList.take 1)) ++ ":"
      else ""
    else ""
  if author = "" ∧ title = "" then GenKey.uuidHex
  else
    let result :=
      if title = "" then pfx ++ format_author author ++ yearStr ++ sfx
      else if author = "" then pfx ++ format_title title ++ yearStr ++ sfx
      else pfx ++ format_author author ++ "-" ++ format_title title ++ sfx
    if result.length < MINIMUM_BIB_KEY_LENGTH then GenKey.padded result
    else GenKey.pure result

/-- Python's substring containment `sub in s`, structurally. -/
def startsWithChars : List Char → List Char → Bool
  | [], _ => true
  | _ :: _, [] => false
  | p :: ps, c :: cs => p = c && startsWithChars ps cs

def containsChars (s sub : List Char) : Bool :=
  startsWithChars sub s ||
    (match s with
     | [] => false
     | _ :: rest => containsChars rest sub)

/-! ### C9 -/

/-- Claim C9, counterexample.  The claim states that for the entry with
author `John Smith`, title `On Bibliography`, year 2020 and type
`article`, `generate_new_key` returns a key combining the author
contraction and the title-initials token *plus the year*.  The generated
key is `smith-ob`: on the author-and-title branch the format string
`'{prefix}{author}-{title}{suffix}'` holds no year at all, and indeed
`2020` does not occur in the result. -/
theorem C9_generate_new_key_counterexample :
    generate_new_key "article" "John Smith" "On Bibliography" (some 2020) "" none
      = GenKey.pure "smith-ob"
    ∧ containsChars "smith-ob".toList "2020".toList = false := by
  refine ⟨by decide, by decide⟩

/-- Claim C9, amended.  For the scenario entry, `generate_new_key`
returns the deterministic key `smith-ob` — the author contraction
(the whole lower-cased last name, the single-author branch) joined by a
dash to the title-initials token, *without* the year, which the
author-and-title branch omits — of length exactly
`MINIMUM_BIB_KEY_LENGTH`; the result is the `pure` constructor, i.e. the
random-padding fallback (triggered only below the minimum length) and the
random-token path (triggered only when author and title are both absent)
are not taken, so identical inputs give the identical key. -/
theorem C9_generate_new_key_scenario :
    generate_new_key "article" "John Smith" "On Bibliography" (some 2020) "" none
      = GenKey.pure (format_author "John Smith" ++ "-"
          ++ format_title "On Bibliography")
    ∧ format_author "John Smith" = "smith"
    ∧ format_title "On Bibliography" = "ob"
    ∧ MINIMUM_BIB_KEY_LENGTH ≤ ("smith-ob" : String).length := by
  refine ⟨by decide, by decide, by decide, by decide⟩

end Bibed
